import Mathlib

/-!
Verification of the compute-dispatch gateway of a Discord bot.

The development shallowly embeds the relevant parts of the source:

* `src/lib/stablediffusion/__init__.py` — the multi-backend Stable
  Diffusion client: server records, construction, the available-server
  selection with its on-demand re-probe, and the start/close lifecycle
  of the background health checker.
* `src/utils/database.py` — the ledger operations `get_user` and
  `add_money` (an unconditional MongoDB `$inc`).
* `src/cogs/wfx.py` — the `generate` command: eligibility check,
  in-flight set, debit before dispatch, compensating credit on failure,
  unconditional removal from the in-flight set.

Async effects are modelled by explicit state passing; the randomness of
`random.choice` by an arbitrary index; network probes and the remote
generation call by oracle parameters; exceptions by sum-type results.
-/

/-- One backend server record (`ServerInfo` dataclass): url, liveness
flag (default `False`), timestamp of the last probe (default `0`). -/
structure ServerInfo where
  url : String
  is_alive : Bool
  last_checked : Nat
deriving Repr, DecidableEq

/-- Python's `url.rstrip('/')` on the character list: drop every
trailing slash. -/
def rstripSlashList (l : List Char) : List Char :=
  (l.reverse.dropWhile (fun c => c == '/')).reverse

/-- Python's `url.rstrip('/')`. -/
def rstripSlash (s : String) : String :=
  ⟨rstripSlashList s.data⟩

/-- `StableDiffusion.__init__`: each base url is stored stripped of
trailing slashes, with `is_alive = False` and `last_checked = 0`. -/
def mkServers (base_urls : List String) : List ServerInfo :=
  base_urls.map (fun u => { url := rstripSlash u, is_alive := false, last_checked := 0 })

/-- The client state: the server list, whether an aiohttp session is
open, the probe interval, and the id of the running health-check task
if any. -/
structure StableDiffusion where
  servers : List ServerInfo
  session : Bool
  health_check_interval : Nat
  health_check_task : Option Nat

/-- `StableDiffusion(url)` with a single string address (the only form
the cog uses) and the default health-check interval of 60 seconds. -/
def mkStableDiffusionSingle (u : String) : StableDiffusion :=
  { servers := mkServers [u]
    session := false
    health_check_interval := 60
    health_check_task := none }

/-- `StableDiffusion._get_available_server`, with the network modelled
by the oracle `probe` (result of `_health_check` per url), the event
loop clock by `now`, and `random.choice` by the index `k` taken modulo
the length of the non-empty candidate list.  Returns the selected
server (`none` models the raised `RuntimeError`) together with the
mutated server list. -/
def getAvailableServer (servers : List ServerInfo) (probe : String → Bool)
    (now : Nat) (k : Nat) : Option ServerInfo × List ServerInfo :=
  match servers.filter (fun s => s.is_alive) with
  | s0 :: rest =>
    (some ((s0 :: rest).get ⟨k % (s0 :: rest).length, Nat.mod_lt k (Nat.succ_pos rest.length)⟩),
     servers)
  | [] =>
    let updated := servers.map (fun s => { s with is_alive := probe s.url, last_checked := now })
    match updated.filter (fun s => s.is_alive) with
    | t0 :: rest2 =>
      (some ((t0 :: rest2).get ⟨k % (t0 :: rest2).length, Nat.mod_lt k (Nat.succ_pos rest2.length)⟩),
       updated)
    | [] => (none, updated)

/-- The pool of asyncio tasks created by `asyncio.create_task`: a
fresh-id counter and the list of live task ids. -/
structure TaskEnv where
  nextId : Nat
  live : List Nat
deriving Repr, DecidableEq

/-- `StableDiffusion.start`: open a session if none, and create the
health-checker task only when `_health_check_task is None`. -/
def StableDiffusion.start (c : StableDiffusion) (env : TaskEnv) :
    StableDiffusion × TaskEnv :=
  let c1 := if c.session then c else { c with session := true }
  match c1.health_check_task with
  | none =>
    ({ c1 with health_check_task := some env.nextId },
     { nextId := env.nextId + 1, live := env.live ++ [env.nextId] })
  | some _ => (c1, env)

/-- `StableDiffusion.close`: cancel the health-checker task if any and
clear the field, then close the session if open.  Total — no path
raises. -/
def StableDiffusion.close (c : StableDiffusion) (env : TaskEnv) :
    StableDiffusion × TaskEnv :=
  let p :=
    match c.health_check_task with
    | some t => ({ c with health_check_task := none }, { env with live := env.live.erase t })
    | none => (c, env)
  if p.1.session then ({ p.1 with session := false }, p.2) else p

/-- The users collection, as a map from `(user_id, guild_id)` to the
`money` field of the stored document (absent key = no document). -/
abbrev Ledger := Nat × Nat → Option Int

/-- Point update of one account's money. -/
def Ledger.update (l : Ledger) (u g : Nat) (v : Int) : Ledger :=
  fun k => if k = (u, g) then some v else l k

/-- `Database.get_user`, restricted to the `money` field the cog
reads. -/
def Database.get_user (l : Ledger) (u g : Nat) : Option Int :=
  l (u, g)

/-- `Database.add_money`: `find_one_and_update` with an unconditional
`$inc` on `money`, returning the post-update balance.  When no document
matches, `find_one_and_update` yields `None` and the subscript raises —
modelled as `none`.  There is no funds check of any kind. -/
def Database.add_money (l : Ledger) (u g : Nat) (amount : Int) :
    Option (Int × Ledger) :=
  match l (u, g) with
  | none => none
  | some m => some (m + amount, l.update u g (m + amount))

/-- `Wfx.generation_cost` (fixed at 100 in `Wfx.__init__`). -/
def generation_cost : Int := 100

/-- Where the body of the `try` block in `Wfx.generate` diverges: the
server selection raises `RuntimeError` (`noBackend`), the remote call
or decoding raises (`remoteFailure`), or the call returns image bytes
(`success`). -/
inductive DispatchOutcome where
  | noBackend
  | remoteFailure
  | success (bytes : List Nat)
deriving Repr, DecidableEq

/-- The caller-visible outcome of one `generate` invocation. -/
inductive SubmitResult where
  | alreadyInFlight
  | insufficientFunds
  | dispatchError
  | crashed
  | success (bytes : List Nat)
deriving Repr, DecidableEq

/-- The shared mutable state `generate` touches: the ledger and the
`active_users` in-flight set. -/
structure WfxState where
  ledger : Ledger
  active_users : List Nat

/-- Result of a run of `generate`: the outcome, the final state, the
sequence of `add_money` calls issued (user, guild, amount), and how
many remote generation requests were sent. -/
structure SubmitTrace where
  result : SubmitResult
  state : WfxState
  ledgerCalls : List (Nat × Nat × Int)
  remoteCalls : Nat

/-- `Wfx.generate` for requester `u` in guild `g`, sequentially:
`_check_user_eligibility` (in-flight membership, then balance versus
`generation_cost`), then the `try` block (insert into `active_users`,
debit, dispatch per `outcome`), the `except` block (compensating
credit), and the `finally` block (removal from `active_users`). -/
def Wfx.generate (st : WfxState) (u g : Nat) (outcome : DispatchOutcome) :
    SubmitTrace :=
  if u ∈ st.active_users then
    { result := .alreadyInFlight, state := st, ledgerCalls := [], remoteCalls := 0 }
  else
    match Database.get_user st.ledger u g with
    | none => { result := .insufficientFunds, state := st, ledgerCalls := [], remoteCalls := 0 }
    | some m =>
      if m < generation_cost then
        { result := .insufficientFunds, state := st, ledgerCalls := [], remoteCalls := 0 }
      else
        let active1 := u :: st.active_users
        match Database.add_money st.ledger u g (-generation_cost) with
        | none =>
          { result := .crashed
            state := { ledger := st.ledger, active_users := active1.erase u }
            ledgerCalls := [(u, g, -generation_cost)], remoteCalls := 0 }
        | some (_, l1) =>
          match outcome with
          | .noBackend =>
            match Database.add_money l1 u g generation_cost with
            | none =>
              { result := .crashed
                state := { ledger := l1, active_users := active1.erase u }
                ledgerCalls := [(u, g, -generation_cost), (u, g, generation_cost)]
                remoteCalls := 0 }
            | some (_, l2) =>
              { result := .dispatchError
                state := { ledger := l2, active_users := active1.erase u }
                ledgerCalls := [(u, g, -generation_cost), (u, g, generation_cost)]
                remoteCalls := 0 }
          | .remoteFailure =>
            match Database.add_money l1 u g generation_cost with
            | none =>
              { result := .crashed
                state := { ledger := l1, active_users := active1.erase u }
                ledgerCalls := [(u, g, -generation_cost), (u, g, generation_cost)]
                remoteCalls := 1 }
            | some (_, l2) =>
              { result := .dispatchError
                state := { ledger := l2, active_users := active1.erase u }
                ledgerCalls := [(u, g, -generation_cost), (u, g, generation_cost)]
                remoteCalls := 1 }
          | .success bytes =>
            { result := .success bytes
              state := { ledger := l1, active_users := active1.erase u }
              ledgerCalls := [(u, g, -generation_cost)], remoteCalls := 1 }

/-- One submission coroutine reduced to its admission-relevant atomic
segments.  `pc = 0`: about to run the membership test of
`_check_user_eligibility` (line 39) — the following `await
self.bot.db.get_user(...)` is a suspension point; `pc = 1`: resumed
after the await, about to run `self.active_users.add(...)` (line 197);
`pc = 2`: done. -/
structure Proc where
  pc : Nat
  admitted : Bool
  rejected : Bool
deriving Repr, DecidableEq

/-- One atomic segment of a submission for requester `u` against the
shared in-flight set. -/
def stepProc (u : Nat) (active : List Nat) (p : Proc) : List Nat × Proc :=
  match p.pc with
  | 0 =>
    if u ∈ active then (active, { p with pc := 2, rejected := true })
    else (active, { p with pc := 1 })
  | 1 => (u :: active, { p with pc := 2, admitted := true })
  | _ => (active, p)

/-- Two concurrent submissions from the same requester sharing the
in-flight set. -/
structure TwoSubmit where
  active : List Nat
  p1 : Proc
  p2 : Proc
deriving Repr, DecidableEq

/-- Scheduler step: run one atomic segment of the chosen coroutine. -/
def schedStep (u : Nat) (s : TwoSubmit) (first : Bool) : TwoSubmit :=
  if first then
    let r := stepProc u s.active s.p1
    { s with active := r.1, p1 := r.2 }
  else
    let r := stepProc u s.active s.p2
    { s with active := r.1, p2 := r.2 }

/-- Run a whole interleaving (cooperative asyncio schedule). -/
def runSched (u : Nat) (s : TwoSubmit) : List Bool → TwoSubmit
  | [] => s
  | b :: bs => runSched u (schedStep u s b) bs

/-- Both coroutines at their first segment, in-flight set empty. -/
def initTwoSubmit : TwoSubmit :=
  { active := []
    p1 := { pc := 0, admitted := false, rejected := false }
    p2 := { pc := 0, admitted := false, rejected := false } }

/-! ## Helper lemmas -/

theorem head?_dropWhile_not {α : Type} (p : α → Bool) (l : List α) (a : α)
    (h : (l.dropWhile p).head? = some a) : p a = false := by
  induction l with
  | nil => simp [List.dropWhile] at h
  | cons x xs ih =>
    rw [List.dropWhile_cons] at h
    by_cases hx : p x = true
    · rw [if_pos hx] at h
      exact ih h
    · rw [if_neg hx] at h
      simp only [List.head?_cons, Option.some.injEq] at h
      subst h
      simpa using hx

/-! ## Selection claims -/

/-- C4.  Selection correctness: whenever the snapshot contains at least
one alive server, `_get_available_server` returns a server that is
alive in that snapshot, drawn from the filtered alive set, and does not
mutate the server list. -/
theorem select_alive_correct (servers : List ServerInfo) (probe : String → Bool)
    (now k : Nat)
    (halive : servers.filter (fun s => s.is_alive) ≠ []) :
    ∃ s, (getAvailableServer servers probe now k).1 = some s ∧
      s ∈ servers.filter (fun s => s.is_alive) ∧ s.is_alive = true ∧
      (getAvailableServer servers probe now k).2 = servers := by
  obtain ⟨s0, rest, heq⟩ := List.exists_cons_of_ne_nil halive
  have hfil : (s0 :: rest).get
      ⟨k % (s0 :: rest).length, Nat.mod_lt k (Nat.succ_pos rest.length)⟩ ∈
      servers.filter (fun s => s.is_alive) := by
    rw [heq]; exact List.get_mem _ _ _
  refine ⟨_, ?_, hfil, List.of_mem_filter hfil, ?_⟩
  · simp only [getAvailableServer, heq]
  · simp only [getAvailableServer, heq]

/-- C5.  Fail-safe selection: when the snapshot has no alive server but
at least one endpoint answers the synchronous re-probe, the selection
probes every endpoint (the returned list is the fully refreshed one)
and returns a server that probed alive. -/
theorem select_failsafe (servers : List ServerInfo) (probe : String → Bool)
    (now k : Nat)
    (hdead : servers.filter (fun s => s.is_alive) = [])
    (hsome : ∃ s, s ∈ servers ∧ probe s.url = true) :
    (getAvailableServer servers probe now k).2 =
      servers.map (fun s => { s with is_alive := probe s.url, last_checked := now }) ∧
    ∃ s, (getAvailableServer servers probe now k).1 = some s ∧
      s ∈ servers.map (fun s => { s with is_alive := probe s.url, last_checked := now }) ∧
      s.is_alive = true := by
  have hne : (servers.map (fun s => { s with is_alive := probe s.url, last_checked := now
      })).filter (fun s => s.is_alive) ≠ [] := by
    obtain ⟨s, hs, hp⟩ := hsome
    apply List.ne_nil_of_mem (a :=
      { s with is_alive := probe s.url, last_checked := now })
    rw [List.mem_filter]
    exact ⟨List.mem_map_of_mem _ hs, by simpa using hp⟩
  obtain ⟨t0, rest2, heq⟩ := List.exists_cons_of_ne_nil hne
  have hfil : (t0 :: rest2).get
      ⟨k % (t0 :: rest2).length, Nat.mod_lt k (Nat.succ_pos rest2.length)⟩ ∈
      (servers.map (fun s => { s with is_alive := probe s.url, last_checked := now
        })).filter (fun s => s.is_alive) := by
    rw [heq]; exact List.get_mem _ _ _
  refine ⟨?_, _, ?_, List.mem_of_mem_filter hfil, List.of_mem_filter hfil⟩
  · simp only [getAvailableServer, hdead, heq]
  · simp only [getAvailableServer, hdead, heq]

/-- C6.  Total unavailability: when the snapshot has no alive server
and every synchronous re-probe fails, the selection fails (raises
`RuntimeError`) and leaves every endpoint refreshed: not alive, with
`last_checked` set to the probe time. -/
theorem select_unavailable (servers : List ServerInfo) (probe : String → Bool)
    (now k : Nat)
    (hdead : servers.filter (fun s => s.is_alive) = [])
    (hall : ∀ s, s ∈ servers → probe s.url = false) :
    (getAvailableServer servers probe now k).1 = none ∧
    (getAvailableServer servers probe now k).2 =
      servers.map (fun s => { s with is_alive := probe s.url, last_checked := now }) ∧
    ∀ s, s ∈ (getAvailableServer servers probe now k).2 →
      s.is_alive = false ∧ s.last_checked = now := by
  have hupd : (servers.map (fun s => { s with is_alive := probe s.url, last_checked := now
      })).filter (fun s => s.is_alive) = [] := by
    rw [List.filter_eq_nil_iff]
    intro a ha
    obtain ⟨s, hs, rfl⟩ := List.mem_map.mp ha
    simp [hall s hs]
  refine ⟨?_, ?_, ?_⟩
  · simp only [getAvailableServer, hdead, hupd]
  · simp only [getAvailableServer, hdead, hupd]
  · intro s hs
    simp only [getAvailableServer, hdead, hupd] at hs
    obtain ⟨s', hs', rfl⟩ := List.mem_map.mp hs
    exact ⟨by simpa using hall s' hs', rfl⟩

/-- C10.  Construction invariant: a client built from one string
address has exactly one registered endpoint, stored with trailing
slashes stripped (the stored address never ends in a slash), initially
not alive with last_checked = 0; hence the first selection always takes
the on-demand synchronous probe path (the returned server list is the
probed refresh, for every probe oracle, clock and random index). -/
theorem mk_single_init_invariant (u : String) :
    (mkStableDiffusionSingle u).servers =
      [{ url := rstripSlash u, is_alive := false, last_checked := 0 }] ∧
    (∀ c, (rstripSlash u).data.getLast? = some c → c ≠ '/') ∧
    (mkStableDiffusionSingle u).servers.filter (fun s => s.is_alive) = [] ∧
    ∀ (probe : String → Bool) (now k : Nat),
      (getAvailableServer (mkStableDiffusionSingle u).servers probe now k).2 =
        [{ url := rstripSlash u, is_alive := probe (rstripSlash u), last_checked := now }] := by
  refine ⟨rfl, ?_, rfl, ?_⟩
  · intro c hc
    have hh : ((u.data.reverse.dropWhile (fun x => x == '/')).head?) = some c := by
      have : (rstripSlash u).data = (u.data.reverse.dropWhile (fun x => x == '/')).reverse := rfl
      rw [this, List.getLast?_reverse] at hc
      exact hc
    have := head?_dropWhile_not _ _ _ hh
    simpa using this
  · intro probe now k
    show (getAvailableServer
      [{ url := rstripSlash u, is_alive := false, last_checked := 0 }] probe now k).2 = _
    simp only [getAvailableServer, List.filter, List.map]
    cases hp : probe (rstripSlash u) <;> simp [hp]

/-- C8.  Idempotent lifecycle of the health monitor: a second `start`
is a no-op (so exactly one health-check loop is live after starting a
fresh client twice); `close` is a total function (no path raises), a
second `close` is a no-op, and `close` on a never-started client is the
identity. -/
theorem start_close_idempotent :
    (∀ (c : StableDiffusion) (e : TaskEnv),
        StableDiffusion.start (StableDiffusion.start c e).1 (StableDiffusion.start c e).2 =
          StableDiffusion.start c e) ∧
    (∀ u : String,
        ((StableDiffusion.start (mkStableDiffusionSingle u)
            { nextId := 0, live := [] }).2).live.length = 1) ∧
    (∀ (c : StableDiffusion) (e : TaskEnv),
        StableDiffusion.close (StableDiffusion.close c e).1 (StableDiffusion.close c e).2 =
          StableDiffusion.close c e) ∧
    (∀ u : String,
        StableDiffusion.close (mkStableDiffusionSingle u) { nextId := 0, live := [] } =
          (mkStableDiffusionSingle u, { nextId := 0, live := [] })) := by
  refine ⟨?_, ?_, ?_, ?_⟩
  · intro c e
    cases hs : c.session <;> cases ht : c.health_check_task <;>
      simp [StableDiffusion.start, hs, ht]
  · intro u
    simp [StableDiffusion.start, mkStableDiffusionSingle]
  · intro c e
    cases hs : c.session <;> cases ht : c.health_check_task <;>
      simp [StableDiffusion.close, hs, ht]
  · intro u
    simp [StableDiffusion.close, mkStableDiffusionSingle]

/-! ## Dispatch-flow claims -/

/-- C3.  Single-flight admission: a requester already in
`active_users` gets `alreadyInFlight` back with no side effect at all:
the state is returned unchanged, no `add_money` call is issued (so the
debit is never invoked) and no remote request is sent. -/
theorem generate_already_in_flight (st : WfxState) (u g : Nat)
    (outcome : DispatchOutcome) (h : u ∈ st.active_users) :
    Wfx.generate st u g outcome =
      { result := .alreadyInFlight, state := st, ledgerCalls := [], remoteCalls := 0 } := by
  simp [Wfx.generate, h]

/-- C1.  Reservation round-trip: for an eligible requester (not in
flight, balance `m` at least the cost) whose dispatch fails after the
successful debit — selection failure or remote-call failure — the
compensating credit restores the balance to exactly `m`, and the
requester is no longer in the in-flight set. -/
theorem generate_roundtrip (st : WfxState) (u g : Nat) (m : Int)
    (outcome : DispatchOutcome)
    (hactive : u ∉ st.active_users)
    (hbal : st.ledger (u, g) = some m)
    (hge : ¬ m < generation_cost)
    (hfail : outcome = DispatchOutcome.noBackend ∨ outcome = DispatchOutcome.remoteFailure) :
    (Wfx.generate st u g outcome).state.ledger (u, g) = some m ∧
    u ∉ (Wfx.generate st u g outcome).state.active_users ∧
    (Wfx.generate st u g outcome).result = SubmitResult.dispatchError := by
  have hm : m + -generation_cost + generation_cost = m := by ring
  rcases hfail with rfl | rfl <;>
    simp [Wfx.generate, Database.get_user, Database.add_money, Ledger.update,
      hactive, hbal, hge, hm, List.erase_cons_head]

/-- C2.  Successful path: for an eligible requester with balance `m`,
a successful remote call returns the image bytes, debits exactly the
cost with no compensating credit (the trace is the single debit), and
removes the requester from the in-flight set. -/
theorem generate_success (st : WfxState) (u g : Nat) (m : Int)
    (bytes : List Nat)
    (hactive : u ∉ st.active_users)
    (hbal : st.ledger (u, g) = some m)
    (hge : ¬ m < generation_cost) :
    (Wfx.generate st u g (DispatchOutcome.success bytes)).result =
      SubmitResult.success bytes ∧
    (Wfx.generate st u g (DispatchOutcome.success bytes)).state.ledger (u, g) =
      some (m - generation_cost) ∧
    (Wfx.generate st u g (DispatchOutcome.success bytes)).ledgerCalls =
      [(u, g, -generation_cost)] ∧
    u ∉ (Wfx.generate st u g (DispatchOutcome.success bytes)).state.active_users := by
  have hm : m + -generation_cost = m - generation_cost := by ring
  simp [Wfx.generate, Database.get_user, Database.add_money, Ledger.update,
    hactive, hbal, hge, hm, List.erase_cons_head]

/-! ## Ledger check placement (C7) -/

/-- A ledger with one account `(1, 1)` holding 50 money. -/
def ledgerFifty : Ledger := fun k => if k = (1, 1) then some 50 else none

/-- C7 counterexample: with balance 50 < cost 100, the ledger debit
`add_money` does NOT fail with InsufficientFunds — it succeeds
unconditionally and reports the negative balance -50.  The funds check
is not performed by the ledger. -/
theorem add_money_no_funds_check_counterexample :
    (Database.add_money ledgerFifty 1 1 (-100)).isSome = true ∧
    (Database.add_money ledgerFifty 1 1 (-100)).map (fun r => r.1) = some (-50) ∧
    (50 : Int) < 100 := by
  refine ⟨rfl, ?_, by norm_num⟩
  show some ((50 : Int) + -100) = some (-50)
  norm_num

/-- C7 amended: the balance-versus-cost check is performed by the
gateway (`_check_user_eligibility`), not by the ledger: when the
balance is below the cost, `generate` returns `insufficientFunds`
with the state unchanged and no ledger call issued, while the ledger's
own `add_money` succeeds unconditionally on any existing account,
returning the incremented balance. -/
theorem gateway_checks_funds (st : WfxState) (u g : Nat) (m : Int)
    (hactive : u ∉ st.active_users)
    (hbal : st.ledger (u, g) = some m)
    (hlt : m < generation_cost) :
    (∀ outcome : DispatchOutcome,
        Wfx.generate st u g outcome =
          { result := .insufficientFunds, state := st, ledgerCalls := [], remoteCalls := 0 }) ∧
    (∀ amount : Int,
        Database.add_money st.ledger u g amount =
          some (m + amount, st.ledger.update u g (m + amount))) := by
  constructor
  · intro outcome
    simp [Wfx.generate, Database.get_user, hactive, hbal, hlt]
  · intro amount
    simp [Database.add_money, hbal]

/-! ## Admission linearization (C9) -/

/-- C9 counterexample: the interleaving in which both coroutines run
their membership check (each sees the other not yet inserted) before
either runs its insert admits BOTH submissions from requester 7 — the
check and the insert are separated by a suspension point, so admission
is not linearized. -/
theorem admission_race_counterexample :
    (runSched 7 initTwoSubmit [true, false, true, false]).p1.admitted = true ∧
    (runSched 7 initTwoSubmit [true, false, true, false]).p2.admitted = true := by
  constructor <;> rfl

/-- C9 amended: the admission check and the insertion are separate
atomic segments (a suspension point lies between lines 39 and 197 of
the cog), so two interleaved submissions can both be admitted; a
submission observes the in-flight rejection exactly when the other's
insert has already executed at the moment of its check — in particular
under serialized execution the second submission is rejected and not
admitted. -/
theorem admission_check_insert_separate :
    (∀ (u : Nat) (active : List Nat) (p : Proc), p.pc = 0 → u ∈ active →
        stepProc u active p = (active, { p with pc := 2, rejected := true })) ∧
    (∀ u : Nat,
        (runSched u initTwoSubmit [true, true, false, false]).p1.admitted = true ∧
        (runSched u initTwoSubmit [true, true, false, false]).p2.rejected = true ∧
        (runSched u initTwoSubmit [true, true, false, false]).p2.admitted = false) := by
  constructor
  · intro u active p hpc hmem
    simp [stepProc, hpc, hmem]
  · intro u
    simp [runSched, schedStep, stepProc, initTwoSubmit]

/-! ## Witnesses -/

/-- A ledger with one account `(1, 1)` holding 100 money. -/
def ledgerHundred : Ledger := fun k => if k = (1, 1) then some 100 else none

/-- A ledger with one account `(1, 1)` holding 150 money. -/
def ledger150 : Ledger := fun k => if k = (1, 1) then some 150 else none

/-- C1 witness: balance 100, cost 100, `NoBackendAvailable` failure —
the balance is exactly 100 afterwards and the requester is out of the
in-flight set. -/
theorem generate_roundtrip_witness :
    (1 ∉ ([] : List Nat)) ∧ ledgerHundred (1, 1) = some 100 ∧
    ¬ (100 : Int) < generation_cost ∧
    ((Wfx.generate ⟨ledgerHundred, []⟩ 1 1 DispatchOutcome.noBackend).state.ledger (1, 1) =
        some 100 ∧
      1 ∉ (Wfx.generate ⟨ledgerHundred, []⟩ 1 1 DispatchOutcome.noBackend).state.active_users ∧
      (Wfx.generate ⟨ledgerHundred, []⟩ 1 1 DispatchOutcome.noBackend).result =
        SubmitResult.dispatchError) :=
  ⟨by decide, rfl, by decide,
    generate_roundtrip ⟨ledgerHundred, []⟩ 1 1 100 DispatchOutcome.noBackend (by decide) rfl
      (by decide) (Or.inl rfl)⟩

/-- C2 witness: balance 150, cost 100, one successful backend returning
bytes 0xFF 0xD8 — the bytes come back, the balance is 50, the single
ledger call is the debit, and the requester is out of the in-flight
set. -/
theorem generate_success_witness :
    (1 ∉ ([] : List Nat)) ∧ ledger150 (1, 1) = some 150 ∧
    ¬ (150 : Int) < generation_cost ∧
    ((Wfx.generate ⟨ledger150, []⟩ 1 1 (DispatchOutcome.success [255, 216])).result =
        SubmitResult.success [255, 216] ∧
      (Wfx.generate ⟨ledger150, []⟩ 1 1 (DispatchOutcome.success [255, 216])).state.ledger
          (1, 1) = some (150 - generation_cost) ∧
      (Wfx.generate ⟨ledger150, []⟩ 1 1 (DispatchOutcome.success [255, 216])).ledgerCalls =
        [(1, 1, -generation_cost)] ∧
      1 ∉ (Wfx.generate ⟨ledger150, []⟩ 1 1
          (DispatchOutcome.success [255, 216])).state.active_users) ∧
    (150 - generation_cost : Int) = 50 :=
  ⟨by decide, rfl, by decide,
    generate_success ⟨ledger150, []⟩ 1 1 150 [255, 216] (by decide) rfl (by decide),
    by decide⟩

/-- C3 witness: requester 7 already in flight — the second submit is
rejected with no side effect. -/
theorem generate_already_in_flight_witness :
    7 ∈ ([7] : List Nat) ∧
    Wfx.generate ⟨ledgerFifty, [7]⟩ 7 1 DispatchOutcome.noBackend =
      { result := .alreadyInFlight, state := ⟨ledgerFifty, [7]⟩,
        ledgerCalls := [], remoteCalls := 0 } :=
  ⟨by decide,
    generate_already_in_flight ⟨ledgerFifty, [7]⟩ 7 1 DispatchOutcome.noBackend (by decide)⟩

/-- C4 witness: one alive server — selection returns it, alive in the
snapshot, list untouched. -/
theorem select_alive_correct_witness :
    ([⟨"a", true, 5⟩] : List ServerInfo).filter (fun s => s.is_alive) ≠ [] ∧
    ∃ s, (getAvailableServer [⟨"a", true, 5⟩] (fun _ => false) 9 3).1 = some s ∧
      s ∈ ([⟨"a", true, 5⟩] : List ServerInfo).filter (fun s => s.is_alive) ∧
      s.is_alive = true ∧
      (getAvailableServer [⟨"a", true, 5⟩] (fun _ => false) 9 3).2 = [⟨"a", true, 5⟩] :=
  ⟨by decide, select_alive_correct [⟨"a", true, 5⟩] (fun _ => false) 9 3 (by decide)⟩

/-- C5 witness: one dead server whose synchronous re-probe answers
alive — selection refreshes the list and returns the revived server. -/
theorem select_failsafe_witness :
    ([⟨"a", false, 0⟩] : List ServerInfo).filter (fun s => s.is_alive) = [] ∧
    (∃ s, s ∈ ([⟨"a", false, 0⟩] : List ServerInfo) ∧ (fun _ => true) s.url = true) ∧
    ((getAvailableServer [⟨"a", false, 0⟩] (fun _ => true) 9 0).2 =
      ([⟨"a", false, 0⟩] : List ServerInfo).map
        (fun s => { s with is_alive := (fun _ => true) s.url, last_checked := 9 }) ∧
    ∃ s, (getAvailableServer [⟨"a", false, 0⟩] (fun _ => true) 9 0).1 = some s ∧
      s ∈ ([⟨"a", false, 0⟩] : List ServerInfo).map
        (fun s => { s with is_alive := (fun _ => true) s.url, last_checked := 9 }) ∧
      s.is_alive = true) :=
  ⟨by decide, ⟨⟨"a", false, 0⟩, by decide, rfl⟩,
    select_failsafe [⟨"a", false, 0⟩] (fun _ => true) 9 0 (by decide)
      ⟨⟨"a", false, 0⟩, by decide, rfl⟩⟩

/-- C6 witness: one dead server whose re-probe also fails — selection
fails and the server record is refreshed (not alive, new timestamp). -/
theorem select_unavailable_witness :
    ([⟨"a", false, 0⟩] : List ServerInfo).filter (fun s => s.is_alive) = [] ∧
    (∀ s, s ∈ ([⟨"a", false, 0⟩] : List ServerInfo) → (fun _ => false) s.url = false) ∧
    ((getAvailableServer [⟨"a", false, 0⟩] (fun _ => false) 9 0).1 = none ∧
    (getAvailableServer [⟨"a", false, 0⟩] (fun _ => false) 9 0).2 =
      ([⟨"a", false, 0⟩] : List ServerInfo).map
        (fun s => { s with is_alive := (fun _ => false) s.url, last_checked := 9 }) ∧
    ∀ s, s ∈ (getAvailableServer [⟨"a", false, 0⟩] (fun _ => false) 9 0).2 →
      s.is_alive = false ∧ s.last_checked = 9) :=
  ⟨by decide, fun _ _ => rfl,
    select_unavailable [⟨"a", false, 0⟩] (fun _ => false) 9 0 (by decide) (fun _ _ => rfl)⟩

/-- C7 witness: balance 50 < cost 100 — the gateway rejects with
`insufficientFunds` and no ledger call, while the ledger debit itself
succeeds unconditionally. -/
theorem gateway_checks_funds_witness :
    (1 ∉ ([] : List Nat)) ∧ ledgerFifty (1, 1) = some 50 ∧
    (50 : Int) < generation_cost ∧
    ((∀ outcome : DispatchOutcome,
        Wfx.generate ⟨ledgerFifty, []⟩ 1 1 outcome =
          { result := .insufficientFunds, state := ⟨ledgerFifty, []⟩,
            ledgerCalls := [], remoteCalls := 0 }) ∧
      (∀ amount : Int,
        Database.add_money ledgerFifty 1 1 amount =
          some (50 + amount, Ledger.update ledgerFifty 1 1 (50 + amount)))) :=
  ⟨by decide, rfl, by decide,
    gateway_checks_funds ⟨ledgerFifty, []⟩ 1 1 50 (by decide) rfl (by decide)⟩

/-- C9 witness: requester 7 already inserted — the check segment of a
fresh submission rejects deterministically. -/
theorem admission_check_insert_separate_witness :
    7 ∈ ([7] : List Nat) ∧
    stepProc 7 [7] { pc := 0, admitted := false, rejected := false } =
      ([7], { pc := 2, admitted := false, rejected := true }) :=
  ⟨by decide,
    admission_check_insert_separate.1 7 [7]
      { pc := 0, admitted := false, rejected := false } rfl (by decide)⟩

/-- C10 witness: the address http with three trailing slashes is
stored ending in the letter x, not in a slash. -/
theorem mk_single_init_invariant_witness :
    (rstripSlash "http://x///").data.getLast? = some 'x' ∧ 'x' ≠ '/' :=
  ⟨by decide, (mk_single_init_invariant "http://x///").2.1 'x' (by decide)⟩
